import Mathlib

/-!
Verification of the chatbot engagement metric accumulator (src/index.py).

The embedding is a direct shallow translation of the Python class
ChatbotEngagementMetrics.  Python floats are modelled as rationals.
Every method that reads the wall clock (time.time()) takes the clock
reading(s) it performs as explicit parameters.  A Python statement that
can raise ZeroDivisionError is modelled as an Option-valued computation
returning none on the raising path.
-/

/-- Translation of the Python enum MessageLength (SHORT = 1, MEDIUM = 2, LONG = 3). -/
inductive MessageLength where
  | SHORT
  | MEDIUM
  | LONG
deriving DecidableEq

/-- Translation of the dataclass Message: content, timestamp, role flag and
length category computed at construction. -/
structure Message where
  content : String
  timestamp : ℚ
  is_user : Bool
  length : MessageLength
deriving DecidableEq

/-- The mutable state of the Python class ChatbotEngagementMetrics:
the ordered message history (insertion order, oldest first, as Python
list.append produces) and the derived counters. -/
structure ChatbotEngagementMetrics where
  messages : List Message
  page_switches : ℕ
  slow_responses : ℕ
  external_clicks : ℕ
  ghosting_time : ℚ
  last_bot_response_time : Option ℚ
deriving DecidableEq

/-- The constructor body of ChatbotEngagementMetrics.__init__: empty history,
all counters zero, no bot response recorded. -/
def initMetrics : ChatbotEngagementMetrics :=
  { messages := []
    page_switches := 0
    slow_responses := 0
    external_clicks := 0
    ghosting_time := 0
    last_bot_response_time := none }

/-- The whitespace characters Python str.split() separates on
(space, tab, newline, vertical tab, form feed, carriage return). -/
def pyIsSpace (c : Char) : Bool :=
  c = ' ' || c = '\t' || c = '\n' || c = (Char.ofNat 11) || c = (Char.ofNat 12) || c = '\r'

/-- Helper for wordCount: counts maximal runs of non-whitespace characters.
The boolean argument records whether the previous character was inside a word. -/
def wordCountAux : List Char → Bool → ℕ
  | [], _ => 0
  | c :: rest, inWord =>
    if pyIsSpace c then wordCountAux rest false
    else (if inWord then 0 else 1) + wordCountAux rest true

/-- len(content.split()) in Python: str.split() with no separator splits on
runs of whitespace and drops empty fragments, so the word count is the number
of maximal runs of non-whitespace characters. -/
def wordCount (content : String) : ℕ :=
  wordCountAux content.data false

/-- Translation of ChatbotEngagementMetrics._categorize_length. -/
def _categorize_length (content : String) : MessageLength :=
  let word_count := wordCount content
  if word_count < 5 then MessageLength.SHORT
  else if word_count < 20 then MessageLength.MEDIUM
  else MessageLength.LONG

/-- Translation of ChatbotEngagementMetrics.add_message.  The Python body
calls time.time() twice: once for the message timestamp (t1) and, when the
message is not from the user, once more for last_bot_response_time (t2). -/
def add_message (content : String) ( is_user : Bool) (t1 t2 : ℚ)
    (s : ChatbotEngagementMetrics) : ChatbotEngagementMetrics :=
  let length := _categorize_length content
  let s := { s with messages := s.messages ++ [⟨content, t1, is_user, length⟩] }
  if ! is_user then { s with last_bot_response_time := some t2 } else s

/-- Translation of ChatbotEngagementMetrics.record_page_switch.  Python
tests the truthiness of self.last_bot_response_time, so None and the float
0.0 both fail the guard; now is the time.time() reading. -/
def record_page_switch (now : ℚ) (s : ChatbotEngagementMetrics) :
    ChatbotEngagementMetrics :=
  match s.last_bot_response_time with
  | none => s
  | some t =>
    if t ≠ 0 ∧ now - t < 5 then
      { s with page_switches := s.page_switches + 1 }
    else s

/-- Translation of ChatbotEngagementMetrics.record_slow_response: inspects
the two most recent messages (Python indices -1 and -2) when at least two
exist, and increments when their timestamp gap exceeds 30 seconds. -/
def record_slow_response (s : ChatbotEngagementMetrics) :
    ChatbotEngagementMetrics :=
  match s.messages.reverse with
  | m1 :: m2 :: _ =>
    if m1.timestamp - m2.timestamp > 30 then
      { s with slow_responses := s.slow_responses + 1 }
    else s
  | _ => s

/-- Translation of ChatbotEngagementMetrics.record_external_click. -/
def record_external_click (s : ChatbotEngagementMetrics) :
    ChatbotEngagementMetrics :=
  { s with external_clicks := s.external_clicks + 1 }

/-- Translation of ChatbotEngagementMetrics.update_ghosting_time: if the
history is non-empty and the most recent message (Python index -1) is not
from the user, adds (now - its timestamp) to ghosting_time. -/
def update_ghosting_time (now : ℚ) (s : ChatbotEngagementMetrics) :
    ChatbotEngagementMetrics :=
  match s.messages.reverse with
  | m :: _ =>
    if m.is_user then s
    else { s with ghosting_time := s.ghosting_time + (now - m.timestamp) }
  | [] => s

/-- Translation of ChatbotEngagementMetrics._calculate_avg_response_time:
the mean of timestamp gaps between consecutive messages of opposite roles,
or 0 when there are none. -/
def _calculate_avg_response_time (s : ChatbotEngagementMetrics) : ℚ :=
  let response_times := (s.messages.zip s.messages.tail).filterMap
    (fun p => if p.2.is_user ≠ p.1.is_user then some (p.2.timestamp - p.1.timestamp) else none)
  if response_times = [] then 0
  else response_times.sum / (response_times.length : ℚ)

/-- Translation of ChatbotEngagementMetrics.get_engagement_score.  The
Python body divides self.slow_responses by user_messages with no guard;
when user_messages is 0 (and the history already has at least 6 messages)
that division raises ZeroDivisionError, modelled here as none.
total_messages is at least 6 on that path, so the divisions by it cannot
raise. -/
def get_engagement_score (s : ChatbotEngagementMetrics) : Option ℚ :=
  if s.messages.length < 6 then some 0
  else
    let total_messages : ℚ := (s.messages.length : ℚ)
    let user_messages : ℚ := ((s.messages.filter (fun m => m.is_user)).length : ℚ)
    let avg_response_time := _calculate_avg_response_time s
    if user_messages = 0 then none
    else
      let engagement_score :=
        (user_messages / total_messages) * 0.3 +
        (1 - ((s.page_switches : ℚ) / total_messages)) * 0.2 +
        (1 - ((s.slow_responses : ℚ) / user_messages)) * 0.2 +
        (1 - ((s.external_clicks : ℚ) / total_messages)) * 0.2 +
        (1 - min (s.ghosting_time / 300) 1) * 0.1
      some (min (max engagement_score 0) 1)

/-- The structured report print_metrics displays: every counter plus the
computed score.  print_metrics calls get_engagement_score, so it propagates
the ZeroDivisionError path (none). -/
structure MetricsReport where
  total_messages : ℕ
  page_switches : ℕ
  slow_responses : ℕ
  external_clicks : ℕ
  ghosting_time : ℚ
  score : ℚ
deriving DecidableEq

/-- Translation of ChatbotEngagementMetrics.print_metrics as a read-only
report of the values it prints. -/
def print_metrics (s : ChatbotEngagementMetrics) : Option MetricsReport :=
  (get_engagement_score s).map (fun sc =>
    { total_messages := s.messages.length
      page_switches := s.page_switches
      slow_responses := s.slow_responses
      external_clicks := s.external_clicks
      ghosting_time := s.ghosting_time
      score := sc })

/-- One state-mutating call of the public recording interface, with the
wall-clock readings the call performs as explicit data. -/
inductive Op where
  | add_message (content : String) ( is_user : Bool) (t1 t2 : ℚ)
  | record_page_switch (now : ℚ)
  | record_slow_response
  | record_external_click
  | update_ghosting_time (now : ℚ)
deriving DecidableEq

/-- Apply one recording call to an accumulator state. -/
def applyOp (s : ChatbotEngagementMetrics) : Op → ChatbotEngagementMetrics
  | Op.add_message c u t1 t2 => add_message c u t1 t2 s
  | Op.record_page_switch now => record_page_switch now s
  | Op.record_slow_response => record_slow_response s
  | Op.record_external_click => record_external_click s
  | Op.update_ghosting_time now => update_ghosting_time now s

/-- Run a sequence of recording calls from a state. -/
def runOps (s : ChatbotEngagementMetrics) (ops : List Op) :
    ChatbotEngagementMetrics :=
  ops.foldl applyOp s

/-- A state is reachable when some sequence of recording calls produces it
from a freshly constructed accumulator. -/
def Reachable (s : ChatbotEngagementMetrics) : Prop :=
  ∃ ops, runOps initMetrics ops = s

/-! ## Concrete fixtures used by witnesses and counterexamples -/

/-- A message fixture with a fixed short content. -/
def mkMsg (t : ℚ) (u : Bool) : Message :=
  { content := "hi", timestamp := t, is_user := u, length := MessageLength.SHORT }

/-- Six bot messages recorded at times 0..5: reaches a state with
total_messages = 6 and user_messages = 0. -/
def botOps : List Op :=
  [Op.add_message ("hi") false 0 0, Op.add_message ("hi") false 1 1,
   Op.add_message ("hi") false 2 2, Op.add_message ("hi") false 3 3,
   Op.add_message ("hi") false 4 4, Op.add_message ("hi") false 5 5]

/-- The state reached by recording six bot messages. -/
def sixBotState : ChatbotEngagementMetrics := runOps initMetrics botOps

/-- An alternating history of 3 user and 3 bot messages with no behavioural
events, matching the 0.85 scenario of the specification. -/
def altState : ChatbotEngagementMetrics :=
  { messages := [mkMsg 0 true, mkMsg 1 false, mkMsg 2 true,
                 mkMsg 3 false, mkMsg 4 true, mkMsg 5 false]
    page_switches := 0
    slow_responses := 0
    external_clicks := 0
    ghosting_time := 0
    last_bot_response_time := some 5 }

/-! ## Claim theorems -/

/-- Claim C1 (code_bug evidence): the code does NOT guard the division by
zero.  At the reachable state with 6 messages, none from the user,
get_engagement_score hits the unguarded division slow_responses /
user_messages with user_messages = 0 and raises ZeroDivisionError
(modelled as none) instead of treating the term as weight 1 and returning
a score. -/
theorem C1_zero_users_division_error :
    Reachable sixBotState ∧
    sixBotState.messages.length = 6 ∧
    (sixBotState.messages.filter (fun m => m.is_user)).length = 0 ∧
    get_engagement_score sixBotState = none :=
  ⟨⟨botOps, rfl⟩, by decide, by decide, by decide⟩

/-- Claim C2 (counterexample to the claim as stated): there is a reachable
accumulator state, produced by six bot-message recording calls, on which
compute_engagement_score returns no value at all (the unguarded division
raises), so it does not return a value within [0, 1] on every reachable
state. -/
theorem C2_counterexample :
    Reachable sixBotState ∧ get_engagement_score sixBotState = none :=
  ⟨⟨botOps, rfl⟩, by decide⟩

/-- Claim C2 (amended): whenever compute_engagement_score returns a value,
that value lies within [0, 1] inclusive, because the weighted sum is
clamped with min and max (and the below-threshold result 0 is in range). -/
theorem C2_score_in_unit_interval (s : ChatbotEngagementMetrics) (v : ℚ)
    (h : get_engagement_score s = some v) : 0 ≤ v ∧ v ≤ 1 := by
  by_cases h6 : s.messages.length < 6
  · simp [get_engagement_score, h6] at h
    simp [← h]
  · by_cases hu : ((s.messages.filter (fun m => m.is_user)).length : ℚ) = 0
    · simp [get_engagement_score, h6, hu] at h
    · simp [get_engagement_score, h6, hu] at h
      refine ⟨?_, ?_⟩
      · rw [← h]
        exact le_min (le_max_right _ _) zero_le_one
      · rw [← h]
        exact min_le_right _ _

/-- Claim C2 witness: the freshly constructed accumulator returns the value
0, which the theorem places in [0, 1]. -/
theorem C2_witness : 0 ≤ (0 : ℚ) ∧ (0 : ℚ) ≤ 1 :=
  C2_score_in_unit_interval initMetrics 0 (by decide)

/-- Claim C3: any accumulator state whose history holds fewer than 6
messages scores exactly 0, whatever the counters hold. -/
theorem C3_below_threshold_scores_zero (s : ChatbotEngagementMetrics)
    (h : s.messages.length < 6) : get_engagement_score s = some 0 := by
  simp [get_engagement_score, h]

/-- Claim C3 witness: the fresh accumulator has 0 < 6 messages and scores 0. -/
theorem C3_witness : get_engagement_score initMetrics = some 0 :=
  C3_below_threshold_scores_zero initMetrics (by decide)

/-- Helper for Claim C4: a character list of whitespace only contains no
words. -/
theorem wordCountAux_all_space (l : List Char) (b : Bool)
    (h : ∀ c ∈ l, pyIsSpace c = true) : wordCountAux l b = 0 := by
  induction l generalizing b with
  | nil => rfl
  | cons c rest ih =>
    have hc := h c (List.mem_cons_self _ _)
    simp only [wordCountAux, hc, if_true]
    exact ih false (fun d hd => h d (List.mem_cons_of_mem _ hd))

/-- Claim C4: the length classifier splits on whitespace and counts words
(wordCount); fewer than 5 words gives SHORT, 5 to 19 gives MEDIUM, 20 or
more gives LONG; whitespace-only text has 0 words and the empty string maps
to SHORT. -/
theorem C4_categorize_length_thresholds (content : String) :
    (wordCount content < 5 → _categorize_length content = MessageLength.SHORT) ∧
    (5 ≤ wordCount content → wordCount content ≤ 19 →
      _categorize_length content = MessageLength.MEDIUM) ∧
    (20 ≤ wordCount content → _categorize_length content = MessageLength.LONG) ∧
    ((∀ c ∈ content.data, pyIsSpace c = true) →
      _categorize_length content = MessageLength.SHORT) ∧
    _categorize_length ("") = MessageLength.SHORT := by
  refine ⟨?_, ?_, ?_, ?_, by decide⟩
  · intro h
    simp [_categorize_length, h]
  · intro h1 h2
    have hn5 : ¬ wordCount content < 5 := by omega
    have h20 : wordCount content < 20 := by omega
    simp [_categorize_length, hn5, h20]
  · intro h
    have hn5 : ¬ wordCount content < 5 := by omega
    have hn20 : ¬ wordCount content < 20 := by omega
    simp [_categorize_length, hn5, hn20]
  · intro h
    have h0 : wordCount content = 0 := wordCountAux_all_space content.data false h
    simp [_categorize_length, h0]

/-- Claim C4 witness: a 5-word utterance is classified MEDIUM and a 3-word
utterance SHORT, via the thresholds theorem at concrete strings. -/
theorem C4_witness :
    _categorize_length ("a b c d e") = MessageLength.MEDIUM ∧
    _categorize_length ("a b c") = MessageLength.SHORT :=
  ⟨(C4_categorize_length_thresholds ("a b c d e")).2.1 (by decide) (by decide),
   (C4_categorize_length_thresholds ("a b c")).1 (by decide)⟩

/-- The state reached by recording one bot message stamped at time 0:
last_bot_response_time holds the float 0.0, which Python treats as falsy. -/
def botZeroOps : List Op := [Op.add_message ("hi") false 0 0]

/-- The accumulator after one bot message at time 0. -/
def botZeroState : ChatbotEngagementMetrics := runOps initMetrics botZeroOps

/-- Claim C5 (counterexample to the claim as stated): after recording a
non-user message at time 0, last_bot_response_time is the float 0.0; at
current time 3 the bot reply is less than 5 seconds old, yet
record_page_switch leaves the state unchanged, because the Python guard
tests the truthiness of the timestamp and 0.0 is falsy. -/
theorem C5_counterexample :
    Reachable botZeroState ∧
    botZeroState.last_bot_response_time = some 0 ∧
    botZeroState.messages.map (fun m => m.is_user) = [false] ∧
    (3 : ℚ) - 0 < 5 ∧
    record_page_switch 3 botZeroState = botZeroState :=
  ⟨⟨botZeroOps, rfl⟩, by decide, by decide, by norm_num, by decide⟩

/-- Claim C5 (amended): record_page_switch increments page_switches by
exactly 1 when last_bot_response_time holds a nonzero timestamp t with
now - t < 5, and is a no-op when no non-user message was ever recorded,
when the recorded timestamp is exactly 0 (falsy in Python), or when the
most recent non-user message is 5 or more seconds old. -/
theorem C5_page_switch_guard (s : ChatbotEngagementMetrics) (now : ℚ) :
    (∀ t, s.last_bot_response_time = some t → t ≠ 0 → now - t < 5 →
      record_page_switch now s =
        { s with page_switches := s.page_switches + 1 }) ∧
    (s.last_bot_response_time = none → record_page_switch now s = s) ∧
    (s.last_bot_response_time = some 0 → record_page_switch now s = s) ∧
    (∀ t, s.last_bot_response_time = some t → 5 ≤ now - t →
      record_page_switch now s = s) := by
  refine ⟨?_, ?_, ?_, ?_⟩
  · intro t h ht hlt
    simp [record_page_switch, h, ht, hlt]
  · intro h
    simp [record_page_switch, h]
  · intro h
    simp [record_page_switch, h]
  · intro t h hge
    simp [record_page_switch, h, not_lt.mpr hge]

/-- A fixture whose last bot response is stamped at time 1. -/
def botAtOneState : ChatbotEngagementMetrics :=
  { initMetrics with last_bot_response_time := some 1 }

/-- Claim C5 witness: with the bot reply stamped at time 1 and current time
2 (one second old, nonzero timestamp), the counter increments by exactly 1. -/
theorem C5_witness :
    record_page_switch 2 botAtOneState =
      { botAtOneState with page_switches := botAtOneState.page_switches + 1 } :=
  (C5_page_switch_guard botAtOneState 2).1 1 rfl (by norm_num) (by norm_num)

/-- Claim C10: when last_bot_response_time is exactly the float 0.0,
record_page_switch is a no-op even though the reply is recent, exactly as if
no bot message had ever been recorded (last_bot_response_time = None). -/
theorem C10_zero_timestamp_is_falsy (s : ChatbotEngagementMetrics) (now : ℚ)
    (h : s.last_bot_response_time = some 0) (hrecent : now - 0 < 5) :
    record_page_switch now s = s ∧
    record_page_switch now { s with last_bot_response_time := none } =
      { s with last_bot_response_time := none } := by
  constructor
  · simp [record_page_switch, h]
  · simp [record_page_switch]

/-- A fixture whose last bot response is stamped at time 0. -/
def botAtZeroState : ChatbotEngagementMetrics :=
  { initMetrics with last_bot_response_time := some 0 }

/-- Claim C10 witness: at current time 1 (within the 5-second window of the
zero-stamped reply) the page-switch recording is still a no-op. -/
theorem C10_witness :
    record_page_switch 1 botAtZeroState = botAtZeroState ∧
    record_page_switch 1 { botAtZeroState with last_bot_response_time := none } =
      { botAtZeroState with last_bot_response_time := none } :=
  C10_zero_timestamp_is_falsy botAtZeroState 1 rfl (by norm_num)

/-- Claim C6: record_slow_response is a no-op with fewer than 2 messages;
with at least 2 it increments slow_responses by exactly 1 when the gap
between the two most recent messages exceeds 30 seconds and leaves the
state unchanged otherwise, with no condition on the messages' roles. -/
theorem C6_slow_response (s : ChatbotEngagementMetrics) :
    (s.messages.length < 2 → record_slow_response s = s) ∧
    (∀ m1 m2 rest, s.messages.reverse = m1 :: m2 :: rest →
      30 < m1.timestamp - m2.timestamp →
      record_slow_response s =
        { s with slow_responses := s.slow_responses + 1 }) ∧
    (∀ m1 m2 rest, s.messages.reverse = m1 :: m2 :: rest →
      m1.timestamp - m2.timestamp ≤ 30 →
      record_slow_response s = s) := by
  refine ⟨?_, ?_, ?_⟩
  · intro h
    rcases hr : s.messages.reverse with _ | ⟨a, _ | ⟨b, r⟩⟩
    · simp [record_slow_response, hr]
    · simp [record_slow_response, hr]
    · exfalso
      have hlen := congrArg List.length hr
      simp [List.length_reverse] at hlen
      omega
  · intro m1 m2 rest hr hgt
    simp [record_slow_response, hr, hgt]
  · intro m1 m2 rest hr hle
    simp [record_slow_response, hr, not_lt.mpr hle]

/-- A two-message fixture where the latest message arrives 40 seconds after
the previous one (both recorded, roles user then bot). -/
def slowGapState : ChatbotEngagementMetrics :=
  { initMetrics with messages := [mkMsg 0 true, mkMsg 40 false] }

/-- Claim C6 witness: with a 40-second gap between the two most recent
messages, slow_responses increments by exactly 1. -/
theorem C6_witness :
    record_slow_response slowGapState =
      { slowGapState with slow_responses := slowGapState.slow_responses + 1 } :=
  (C6_slow_response slowGapState).2.1 (mkMsg 40 false) (mkMsg 0 true) []
    (by decide) (by norm_num [mkMsg])

/-- Claim C7: update_ghosting_time is a no-op when the history is empty or
its latest message is from the user; otherwise it adds now minus the latest
message's timestamp to ghosting_time, a quantity that is non-negative
whenever the clock reading is at or after that timestamp. -/
theorem C7_ghosting_time (s : ChatbotEngagementMetrics) (now : ℚ) :
    (s.messages = [] → update_ghosting_time now s = s) ∧
    (∀ m rest, s.messages.reverse = m :: rest → m.is_user = true →
      update_ghosting_time now s = s) ∧
    (∀ m rest, s.messages.reverse = m :: rest → m.is_user = false →
      update_ghosting_time now s =
        { s with ghosting_time := s.ghosting_time + (now - m.timestamp) } ∧
      (m.timestamp ≤ now → 0 ≤ now - m.timestamp)) := by
  refine ⟨?_, ?_, ?_⟩
  · intro h
    simp [update_ghosting_time, h]
  · intro m rest hr hu
    simp [update_ghosting_time, hr, hu]
  · intro m rest hr hu
    refine ⟨by simp [update_ghosting_time, hr, hu], fun hts => sub_nonneg.mpr hts⟩

/-- A one-message fixture whose only message is from the bot at time 0. -/
def pendingBotState : ChatbotEngagementMetrics :=
  { initMetrics with messages := [mkMsg 0 false] }

/-- Claim C7 witness: with an unanswered bot message at time 0 and current
time 7, ghosting_time grows by 7 - 0, and that duration is non-negative. -/
theorem C7_witness :
    update_ghosting_time 7 pendingBotState =
      { pendingBotState with
          ghosting_time := pendingBotState.ghosting_time + ((7 : ℚ) - 0) } ∧
    ((0 : ℚ) ≤ 7 → (0 : ℚ) ≤ 7 - 0) :=
  (C7_ghosting_time pendingBotState 7).2.2 (mkMsg 0 false) [] (by decide) rfl

/-- Claim C8: the fresh accumulator starts with every counter at zero; no
recording call ever decreases page_switches, slow_responses,
external_clicks or ghosting_time (for ghosting, under the trusted-clock
assumption that the reading passed to update_ghosting_time is at or after
the pending bot message's timestamp); and last_bot_response_time is set
exactly by non-user add_message calls and retained by every other call. -/
theorem C8_invariants (s : ChatbotEngagementMetrics) (op : Op)
    (hclock : ∀ now m rest, op = Op.update_ghosting_time now →
      s.messages.reverse = m :: rest → m.is_user = false → m.timestamp ≤ now) :
    (initMetrics.page_switches = 0 ∧ initMetrics.slow_responses = 0 ∧
     initMetrics.external_clicks = 0 ∧ initMetrics.ghosting_time = 0) ∧
    (s.page_switches ≤ (applyOp s op).page_switches ∧
     s.slow_responses ≤ (applyOp s op).slow_responses ∧
     s.external_clicks ≤ (applyOp s op).external_clicks ∧
     s.ghosting_time ≤ (applyOp s op).ghosting_time) ∧
    (∀ c t1 t2, op = Op.add_message c false t1 t2 →
      (applyOp s op).last_bot_response_time = some t2) ∧
    ((∀ c t1 t2, op ≠ Op.add_message c false t1 t2) →
      (applyOp s op).last_bot_response_time = s.last_bot_response_time) := by
  refine ⟨⟨rfl, rfl, rfl, rfl⟩, ?_, ?_, ?_⟩
  · cases op with
    | add_message c u t1 t2 =>
      cases u <;> simp [applyOp, add_message]
    | record_page_switch now =>
      cases h : s.last_bot_response_time with
      | none => simp [applyOp, record_page_switch, h]
      | some t =>
        by_cases hc : t ≠ 0 ∧ now - t < 5
        · simp [applyOp, record_page_switch, h, hc]
        · simp [applyOp, record_page_switch, h, hc]
    | record_slow_response =>
      rcases hr : s.messages.reverse with _ | ⟨m1, _ | ⟨m2, r⟩⟩
      · simp [applyOp, record_slow_response, hr]
      · simp [applyOp, record_slow_response, hr]
      · by_cases hg : 30 < m1.timestamp - m2.timestamp
        · simp [applyOp, record_slow_response, hr, hg]
        · simp [applyOp, record_slow_response, hr, hg]
    | record_external_click =>
      simp [applyOp, record_external_click]
    | update_ghosting_time now =>
      rcases hr : s.messages.reverse with _ | ⟨m, r⟩
      · simp [applyOp, update_ghosting_time, hr]
      · cases hu : m.is_user with
        | false =>
          have hts := hclock now m r rfl hr hu
          simp [applyOp, update_ghosting_time, hr, hu]
          linarith
        | true =>
          simp [applyOp, update_ghosting_time, hr, hu]
  · intro c t1 t2 heq
    subst heq
    simp [applyOp, add_message]
  · intro hne
    cases op with
    | add_message c u t1 t2 =>
      cases u with
      | false => exact absurd rfl (hne c t1 t2)
      | true => simp [applyOp, add_message]
    | record_page_switch now =>
      cases h : s.last_bot_response_time with
      | none => simp [applyOp, record_page_switch, h]
      | some t =>
        simp only [applyOp, record_page_switch, h]
        split <;> simp [h]
    | record_slow_response =>
      rcases hr : s.messages.reverse with _ | ⟨m1, _ | ⟨m2, r⟩⟩
      · simp [applyOp, record_slow_response, hr]
      · simp [applyOp, record_slow_response, hr]
      · simp only [applyOp, record_slow_response, hr]
        split <;> rfl
    | record_external_click =>
      simp [applyOp, record_external_click]
    | update_ghosting_time now =>
      rcases hr : s.messages.reverse with _ | ⟨m, r⟩
      · simp [applyOp, update_ghosting_time, hr]
      · cases hu : m.is_user with
        | false => simp [applyOp, update_ghosting_time, hr, hu]
        | true => simp [applyOp, update_ghosting_time, hr, hu]

/-- Claim C8 witness: from the fresh accumulator, an external-click call
does not decrease any counter (in particular external_clicks grows). -/
theorem C8_witness :
    initMetrics.page_switches ≤
      (applyOp initMetrics Op.record_external_click).page_switches ∧
    initMetrics.external_clicks ≤
      (applyOp initMetrics Op.record_external_click).external_clicks ∧
    (applyOp initMetrics Op.record_external_click).last_bot_response_time =
      initMetrics.last_bot_response_time :=
  ⟨((C8_invariants initMetrics Op.record_external_click
      (fun now m rest h => Op.noConfusion h)).2.1).1,
   ((C8_invariants initMetrics Op.record_external_click
      (fun now m rest h => Op.noConfusion h)).2.1).2.2.1,
   (C8_invariants initMetrics Op.record_external_click
      (fun now m rest h => Op.noConfusion h)).2.2.2
      (fun c t1 t2 h => Op.noConfusion h)⟩

/-- One call of the full interface: a recording operation, a score query
(get_engagement_score) or a metrics report query (print_metrics). -/
inductive Call where
  | op (o : Op)
  | score
  | metrics
deriving DecidableEq

/-- Whether a call is a read-only query. -/
def Call.isQuery : Call → Bool
  | Call.op _ => false
  | Call.score => true
  | Call.metrics => true

/-- The value a query call returns when issued in state s.  The value for a
recording call is a dummy (recording calls return no value). -/
def queryResult (s : ChatbotEngagementMetrics) :
    Call → Option ℚ ⊕ Option MetricsReport
  | Call.op _ => Sum.inl none
  | Call.score => Sum.inl (get_engagement_score s)
  | Call.metrics => Sum.inr (print_metrics s)

/-- Run a sequence of calls, threading the accumulator state and collecting
each query's output in order. -/
def runCalls (s : ChatbotEngagementMetrics) :
    List Call → ChatbotEngagementMetrics × List (Option ℚ ⊕ Option MetricsReport)
  | [] => (s, [])
  | Call.op o :: rest => runCalls (applyOp s o) rest
  | Call.score :: rest =>
    let r := runCalls s rest
    (r.1, Sum.inl (get_engagement_score s) :: r.2)
  | Call.metrics :: rest =>
    let r := runCalls s rest
    (r.1, Sum.inr (print_metrics s) :: r.2)

/-- Claim C9: a sequence consisting only of score or metrics-report queries,
with no intervening recording calls, leaves the accumulator state unchanged
and every query's answer is the one determined by the starting state — so
repeated calls return identical results each time. -/
theorem C9_queries_pure_and_repeatable (s : ChatbotEngagementMetrics)
    (calls : List Call) (h : ∀ c ∈ calls, c.isQuery = true) :
    runCalls s calls = (s, calls.map (queryResult s)) := by
  induction calls with
  | nil => simp [runCalls]
  | cons c rest ih =>
    have hrest : ∀ d ∈ rest, d.isQuery = true :=
      fun d hd => h d (List.mem_cons_of_mem _ hd)
    cases c with
    | op o =>
      have := h (Call.op o) (List.mem_cons_self _ _)
      simp [Call.isQuery] at this
    | score =>
      simp [runCalls, queryResult, ih hrest]
    | metrics =>
      simp [runCalls, queryResult, ih hrest]

/-- Claim C9 witness: two consecutive score queries and a metrics query on
the fresh accumulator leave it unchanged and answer from that same state. -/
theorem C9_witness :
    runCalls initMetrics [Call.score, Call.score, Call.metrics] =
      (initMetrics,
       List.map (queryResult initMetrics) [Call.score, Call.score, Call.metrics]) :=
  C9_queries_pure_and_repeatable initMetrics
    [Call.score, Call.score, Call.metrics] (by decide)
